import Mathlib

/-!
Shallow embedding of the communication layer of the drawbot-vscode-extension
repository: the HTTP request client (`src/communication/api-client.ts`,
class `TypeSafeAPIClient`) and the WebSocket connection manager
(class `TypeSafeWebSocketManager`).

Each definition is translated from the TypeScript source; theorems settle
the frozen claims about request deduplication, rate-limit retry, reconnect
backoff, message queuing and flushing, and inbound message dispatch.
-/

namespace DrawBot

/-! ## Request client: deduplication (`TypeSafeAPIClient.deduplicatedRequest`)

The client keeps `requestDeduplication : Map<string, Promise<any>>`.
A promise is modelled by an identifier (`Nat`); the environment later
settles each promise identifier to an outcome.  `deduplicatedRequest`
returns the promise handed to the caller, the updated map, and how many
new underlying transport calls were issued by this invocation (the source
invokes `requestFn()` exactly when the key is absent). -/

structure DedupState where
  entries : List (String × Nat)
deriving DecidableEq, Repr

def DedupState.hasKey (st : DedupState) (k : String) : Bool :=
  (st.entries.lookup k).isSome

def deduplicatedRequest (st : DedupState) (k : String) (fresh : Nat) :
    Nat × DedupState × Nat :=
  match st.entries.lookup k with
  | some p => (p, st, 0)
  | none => (fresh, ⟨(k, fresh) :: st.entries⟩, 1)

/-! ## Request client: response interceptor and rate-limit retry

`setupInterceptors` installs a response interceptor: a 2xx response is
returned; a 429 response is handed to `handleRateLimit`, which waits
`parseInt(retry-after) * 1000` ms (or `Math.pow(2, 1) * 1000 = 2000` ms
when the header is absent) and then re-issues the request through
`this.client.request`, which passes through the same interceptor again;
any other status is rejected as an enhanced error.

The transport is modelled as the list of successive responses the backend
returns, one per underlying call; `requestWithInterceptor` returns the
outcome surfaced to the caller, the list of delays waited before each
automatic retry, and the total number of underlying transport calls.
`fuel` bounds the recursion (the source has no bound). -/

structure HttpResponse where
  status : Nat
  retryAfter : Option Nat
  body : Nat
deriving DecidableEq, Repr

def rateLimitDelay (r : HttpResponse) : Nat :=
  match r.retryAfter with
  | some s => s * 1000
  | none => 2 ^ 1 * 1000

def interceptOutcome (r : HttpResponse) : Except Nat Nat :=
  if 200 ≤ r.status ∧ r.status < 300 then Except.ok r.body
  else Except.error r.status

def requestWithInterceptor :
    Nat → List HttpResponse → Option (Except Nat Nat × List Nat × Nat)
  | _, [] => none
  | 0, _ :: _ => none
  | fuel + 1, r :: rest =>
    if 200 ≤ r.status ∧ r.status < 300 then
      some (Except.ok r.body, [], 1)
    else if r.status = 429 then
      match requestWithInterceptor fuel rest with
      | some (out, delays, calls) => some (out, rateLimitDelay r :: delays, calls + 1)
      | none => none
    else
      some (Except.error r.status, [], 1)


/-! ## Connection manager (`TypeSafeWebSocketManager`)

Per-connection-key state.  The manager keeps several `Map`s keyed by the
connection key (`connections`, `connectionStatus`, `reconnectAttempts`,
`reconnectTimers`, `heartbeatTimers`, `messageQueues`); every operation a
claim refers to touches a single key, so the state is modelled per key,
with `Option` fields standing for map-entry presence.  `hasWs` is
membership of the key in `connections`; `wsOpen` models
`ws.readyState === WebSocket.OPEN` of that socket. -/

inductive ConnectionStatus where
  | disconnected
  | connecting
  | connected
  | reconnecting
  | failed
deriving DecidableEq, Repr

structure WebSocketConfig where
  maxReconnectAttempts : Nat
  reconnectInterval : Nat
  maxReconnectInterval : Nat
  reconnectBackoffMultiplier : Nat
  heartbeatInterval : Nat
  messageQueueMaxSize : Nat
deriving DecidableEq, Repr

def defaultConfig : WebSocketConfig :=
  ⟨5, 1000, 30000, 2, 30000, 100⟩

/-- The `type` tag of an inbound frame after `JSON.parse`; the source
casts unchecked, so a tag outside the declared union is possible. -/
inductive MsgType where
  | sketch_updated
  | execution_complete
  | server_status
  | error
  | ping
  | pong
  | unknown (s : String)
deriving DecidableEq, Repr

/-- A queued outbound message (`TypedWebSocketMessage`); the queue and
flush logic never inspect the payload. -/
structure WSMsg where
  mtype : MsgType
  messageId : Nat
  timestamp : Nat
deriving DecidableEq, Repr

structure ConnState where
  statusEntry : Option ConnectionStatus
  attemptsEntry : Option Nat
  hasWs : Bool
  wsOpen : Bool
  reconnectTimer : Option Nat
  heartbeat : Bool
  queueEntry : Option (List WSMsg)
deriving DecidableEq, Repr

/-- State of a key that was never connected. -/
def initState : ConnState :=
  ⟨none, none, false, false, none, false, none⟩

/-- Events emitted to `EventEmitter` subscribers. -/
inductive EmittedEvent where
  | statusChanged (s : ConnectionStatus)
  | connectedEv
  | disconnectedEv (code : Nat)
  | connectionFailed (attempts : Nat)
  | reconnectRequested (attempts : Nat)
  | sketchUpdated
  | executionComplete
  | serverStatus
  | errorEv
  | messageEvent (t : MsgType)
deriving DecidableEq, Repr

def getConnectionStatus (st : ConnState) : ConnectionStatus :=
  st.statusEntry.getD ConnectionStatus.disconnected

def getReconnectAttempts (st : ConnState) : Nat :=
  st.attemptsEntry.getD 0

def isConnected (st : ConnState) : Bool :=
  st.hasWs && st.wsOpen

def queueOf (st : ConnState) : List WSMsg :=
  st.queueEntry.getD []

/-- `setConnectionStatus`: updates the map entry and emits `statusChanged`. -/
def setConnectionStatus (st : ConnState) (s : ConnectionStatus) :
    ConnState × List EmittedEvent :=
  ({ st with statusEntry := some s }, [EmittedEvent.statusChanged s])

/-- The delay computed in `handleReconnection`:
`Math.min(reconnectInterval * reconnectBackoffMultiplier ** attempts, maxReconnectInterval)`. -/
def reconnectDelay (cfg : WebSocketConfig) (attempts : Nat) : Nat :=
  min (cfg.reconnectInterval * cfg.reconnectBackoffMultiplier ^ attempts)
    cfg.maxReconnectInterval

/-- `handleReconnection`: at `attempts ≥ maxReconnectAttempts` sets status
`FAILED` and emits `connectionFailed` with the attempt count; otherwise
sets status `RECONNECTING`, increments the counter, and schedules a timer
with the backoff delay computed from the pre-increment count. -/
def handleReconnection (cfg : WebSocketConfig) (st : ConnState) :
    ConnState × List EmittedEvent :=
  let attempts := getReconnectAttempts st
  if cfg.maxReconnectAttempts ≤ attempts then
    let (st1, evs) := setConnectionStatus st ConnectionStatus.failed
    (st1, evs ++ [EmittedEvent.connectionFailed attempts])
  else
    let (st1, evs) := setConnectionStatus st ConnectionStatus.reconnecting
    let st2 := { st1 with attemptsEntry := some (attempts + 1) }
    let delay := reconnectDelay cfg attempts
    ({ st2 with reconnectTimer := some delay }, evs)

/-- `handleConnectionClose`: removes the socket, stops the heartbeat; a
normal closure (code 1000) or an exhausted attempt counter yields status
`DISCONNECTED` with a `disconnected` emission, otherwise reconnection is
attempted. -/
def handleConnectionClose (cfg : WebSocketConfig) (st : ConnState)
    (code : Nat) : ConnState × List EmittedEvent :=
  let st0 := { st with hasWs := false, wsOpen := false, heartbeat := false }
  if code = 1000 ∨ cfg.maxReconnectAttempts ≤ getReconnectAttempts st0 then
    let (st1, evs) := setConnectionStatus st0 ConnectionStatus.disconnected
    (st1, evs ++ [EmittedEvent.disconnectedEv code])
  else
    handleReconnection cfg st0

/-- `handleConnectionError`: emits `error`; reconnects only when the
status is `CONNECTED`. -/
def handleConnectionError (cfg : WebSocketConfig) (st : ConnState) :
    ConnState × List EmittedEvent :=
  if getConnectionStatus st = ConnectionStatus.connected then
    let (st1, evs) := handleReconnection cfg st
    (st1, EmittedEvent.errorEv :: evs)
  else
    (st, [EmittedEvent.errorEv])

/-- `queueMessage`: get-or-create the queue entry, push the message, and
drop the oldest entry (`shift`) when the length exceeds
`messageQueueMaxSize`. -/
def queueMessage (cfg : WebSocketConfig) (st : ConnState) (m : WSMsg) :
    ConnState :=
  let queue := (st.queueEntry).getD []
  let queue := queue ++ [m]
  let queue :=
    if cfg.messageQueueMaxSize < queue.length then queue.tail else queue
  { st with queueEntry := some queue }

/-- The `while` loop of `flushMessageQueue`: `shift` the head, try to send
it; on failure `unshift` it back and `break`.  `ok m` tells whether
`ws.send` succeeds on `m`.  Returns the messages sent, in order, and the
remaining queue. -/
def flushLoop (ok : WSMsg → Bool) : List WSMsg → List WSMsg × List WSMsg
  | [] => ([], [])
  | m :: rest =>
    if ok m then
      let (s, r) := flushLoop ok rest
      (m :: s, r)
    else
      ([], m :: rest)

/-- `flushMessageQueue`: returns early when no queue entry exists, the
queue is empty, or the socket is absent or not open; otherwise drains the
queue through `flushLoop`. -/
def flushMessageQueue (st : ConnState) (ok : WSMsg → Bool) :
    ConnState × List WSMsg :=
  match st.queueEntry with
  | none => (st, [])
  | some q =>
    if q.isEmpty then (st, [])
    else if st.hasWs && st.wsOpen then
      let (sent, remaining) := flushLoop ok q
      ({ st with queueEntry := some remaining }, sent)
    else
      (st, [])

/-- The `ws.on` open handler in `createConnection`: set status
`CONNECTED`, record the socket, reset the attempt counter to 0, start the
heartbeat, flush the queue, emit `connected`. -/
def openEvent (st : ConnState) (ok : WSMsg → Bool) :
    ConnState × List EmittedEvent × List WSMsg :=
  let (st1, evs) := setConnectionStatus st ConnectionStatus.connected
  let st2 := { st1 with hasWs := true, wsOpen := true,
                        attemptsEntry := some 0, heartbeat := true }
  let (st3, sent) := flushMessageQueue st2 ok
  (st3, evs ++ [EmittedEvent.connectedEv], sent)

/-- `handleMessage`: a `pong` returns immediately; the `switch` emits the
typed event for each known tag, with `ping` and unrecognized tags falling
to the `default` branch that logs a console warning; the generic
`message` event is then emitted for every non-pong frame.  Returns the
subscriber events and the console warnings. -/
def handleMessage (t : MsgType) : List EmittedEvent × List String :=
  if t = MsgType.pong then ([], [])
  else
    let (typed, warns) :=
      match t with
      | MsgType.sketch_updated => ([EmittedEvent.sketchUpdated], [])
      | MsgType.execution_complete => ([EmittedEvent.executionComplete], [])
      | MsgType.server_status => ([EmittedEvent.serverStatus], [])
      | MsgType.error => ([EmittedEvent.errorEv], [])
      | _ => ([], ["Unknown message type"])
    (typed ++ [EmittedEvent.messageEvent t], warns)

/-- The `ws.on` message handler: a frame that fails `JSON.parse`
(modelled as `none`) logs a console error and emits an `error` event; a
parsed frame is dispatched through `handleMessage`.  The state is never
touched. -/
def onMessage (st : ConnState) (frame : Option MsgType) :
    ConnState × List EmittedEvent × List String :=
  match frame with
  | none => (st, [EmittedEvent.errorEv], [])
  | some t => (st, handleMessage t)

/-- The reconnect timer callback: removes the timer entry and emits
`reconnectRequested` with the current attempt count (the source emits the
pre-increment count plus one, which equals the stored counter). -/
def timerFire (st : ConnState) : ConnState × List EmittedEvent :=
  match st.reconnectTimer with
  | none => (st, [])
  | some _ =>
    ({ st with reconnectTimer := none },
     [EmittedEvent.reconnectRequested (getReconnectAttempts st)])

/-- `connectToSketch` / `connectToServer`: when `isConnected` holds the
existing socket is returned and nothing happens; otherwise
`createConnection` sets status `CONNECTING` and opens a new socket.
Returns the state, whether the existing handle was returned, and the
number of sockets opened. -/
def connectToSketch (st : ConnState) : ConnState × Bool × Nat :=
  if isConnected st then (st, true, 0)
  else
    let (st1, _) := setConnectionStatus st ConnectionStatus.connecting
    (st1, false, 1)

/-- `sendMessage`: with an open socket the frame is transmitted (a
`ws.send` failure propagates to the caller, modelled by the `threw`
flag); otherwise the message is queued. -/
def sendMessage (cfg : WebSocketConfig) (st : ConnState) (m : WSMsg)
    (ok : Bool) : ConnState × List WSMsg × Bool :=
  if st.hasWs && st.wsOpen then
    if ok then (st, [m], false) else (st, [], true)
  else
    (queueMessage cfg st m, [], false)

/-- `cleanup`: deletes the key from every map and clears both timers. -/
def cleanup (_st : ConnState) : ConnState :=
  ⟨none, none, false, false, none, false, none⟩

/-- `closeConnection`: closes the socket with code 1000 (its `close`
event is delivered later as a separate `closeEv`) and runs `cleanup`. -/
def closeConnection (st : ConnState) : ConnState :=
  cleanup st

/-- One externally observable step of the manager for a single key. -/
inductive WSEvent where
  | connectCall
  | openEv (ok : WSMsg → Bool)
  | messageEv (frame : Option MsgType)
  | closeEv (code : Nat)
  | errorEv
  | timerFire
  | sendCall (m : WSMsg) (ok : Bool)
  | closeCall

/-- Everything a step produces besides the next state. -/
structure StepOut where
  events : List EmittedEvent
  sent : List WSMsg
  warns : List String
  opens : Nat
  threw : Bool
deriving Repr

def emptyOut : StepOut := ⟨[], [], [], 0, false⟩

def StepOut.append (a b : StepOut) : StepOut :=
  ⟨a.events ++ b.events, a.sent ++ b.sent, a.warns ++ b.warns,
   a.opens + b.opens, a.threw || b.threw⟩

def step (cfg : WebSocketConfig) (st : ConnState) :
    WSEvent → ConnState × StepOut
  | WSEvent.connectCall =>
    let (st1, _, opens) := connectToSketch st
    let evs := if isConnected st then [] else
      [EmittedEvent.statusChanged ConnectionStatus.connecting]
    (st1, ⟨evs, [], [], opens, false⟩)
  | WSEvent.openEv ok =>
    let (st1, evs, sent) := openEvent st ok
    (st1, ⟨evs, sent, [], 0, false⟩)
  | WSEvent.messageEv frame =>
    let (st1, evs, warns) := onMessage st frame
    (st1, ⟨evs, [], warns, 0, false⟩)
  | WSEvent.closeEv code =>
    let (st1, evs) := handleConnectionClose cfg st code
    (st1, ⟨evs, [], [], 0, false⟩)
  | WSEvent.errorEv =>
    let (st1, evs) := handleConnectionError cfg st
    (st1, ⟨evs, [], [], 0, false⟩)
  | WSEvent.timerFire =>
    let (st1, evs) := timerFire st
    (st1, ⟨evs, [], [], 0, false⟩)
  | WSEvent.sendCall m ok =>
    let (st1, sent, threw) := sendMessage cfg st m ok
    (st1, ⟨[], sent, [], 0, threw⟩)
  | WSEvent.closeCall =>
    (closeConnection st, emptyOut)

def run (cfg : WebSocketConfig) :
    ConnState → List WSEvent → ConnState × StepOut
  | st, [] => (st, emptyOut)
  | st, e :: es =>
    let (st1, o1) := step cfg st e
    let (st2, o2) := run cfg st1 es
    (st2, o1.append o2)

/-- Discriminator: is this event a socket `open` event? -/
def WSEvent.isOpenEv : WSEvent → Bool
  | WSEvent.openEv _ => true
  | _ => false

/-- Discriminator: is this event an explicit `closeConnection` call? -/
def WSEvent.isCloseCall : WSEvent → Bool
  | WSEvent.closeCall => true
  | _ => false

/-- Discriminator: is this a `connectionFailed` emission? -/
def EmittedEvent.isConnectionFailed : EmittedEvent → Bool
  | EmittedEvent.connectionFailed _ => true
  | _ => false

/-! ## Theorems settling the claims -/

/-- The flush loop sends the longest sendable prefix and leaves the
suffix that starts at the first failing message. -/
theorem flushLoop_eq (ok : WSMsg → Bool) (q : List WSMsg) :
    flushLoop ok q = (q.takeWhile ok, q.dropWhile ok) := by
  induction q with
  | nil => rfl
  | cons m rest ih =>
    rw [flushLoop, ih, List.takeWhile_cons, List.dropWhile_cons]
    by_cases h : ok m <;> simp [h]

/-- Dropping a while-prefix never lengthens a list. -/
theorem length_dropWhile_le' (ok : WSMsg → Bool) (q : List WSMsg) :
    (q.dropWhile ok).length ≤ q.length := by
  induction q with
  | nil => simp
  | cons a l ih =>
    rw [List.dropWhile_cons]
    split
    · exact Nat.le_trans ih (Nat.le_succ _)
    · exact Nat.le_refl _

/-- `queueMessage` keeps the queue within the configured capacity. -/
theorem queueMessage_length_le (cfg : WebSocketConfig) (st : ConnState)
    (m : WSMsg) (h : (queueOf st).length ≤ cfg.messageQueueMaxSize) :
    (queueOf (queueMessage cfg st m)).length ≤ cfg.messageQueueMaxSize := by
  unfold queueMessage queueOf at *
  simp only [Option.getD_some]
  split
  · rename_i hlt
    cases hq : st.queueEntry.getD [] with
    | nil => simp
    | cons a t =>
      rw [hq] at h hlt
      simp at h hlt ⊢
      omega
  · rename_i hnlt
    simp at hnlt ⊢
    omega

/-! ### Claims C1 and C2 -/

/-- C1: two `deduplicatedRequest` invocations with the same dedupe key,
the second issued while the first's entry is still live (the source only
removes the entry one second after settlement), hand both callers the same
promise, issue exactly one underlying transport call in total, and hence
let both callers observe the identical outcome under any settlement of the
promises. -/
theorem c1_dedup_coalesces (st : DedupState) (k : String) (f1 f2 : Nat)
    (h : st.hasKey k = false) :
    (deduplicatedRequest st k f1).1 = f1 ∧
    (deduplicatedRequest st k f1).2.2 = 1 ∧
    (deduplicatedRequest (deduplicatedRequest st k f1).2.1 k f2).1 = f1 ∧
    (deduplicatedRequest (deduplicatedRequest st k f1).2.1 k f2).2.2 = 0 ∧
    ∀ settle : Nat → Except String String,
      settle ((deduplicatedRequest (deduplicatedRequest st k f1).2.1 k f2).1) =
      settle ((deduplicatedRequest st k f1).1) := by
  unfold DedupState.hasKey at h
  unfold deduplicatedRequest
  cases hl : st.entries.lookup k with
  | some p => rw [hl] at h; simp at h
  | none => simp [hl, List.lookup]

/-- Witness for C1 at a concrete empty map and key. -/
theorem c1_dedup_coalesces_witness :
    (DedupState.hasKey ⟨[]⟩ "health" = false) ∧
    ((deduplicatedRequest ⟨[]⟩ "health" 7).1 = 7 ∧
     (deduplicatedRequest ⟨[]⟩ "health" 7).2.2 = 1 ∧
     (deduplicatedRequest (deduplicatedRequest ⟨[]⟩ "health" 7).2.1 "health" 8).1 = 7 ∧
     (deduplicatedRequest (deduplicatedRequest ⟨[]⟩ "health" 7).2.1 "health" 8).2.2 = 0 ∧
     ∀ settle : Nat → Except String String,
       settle ((deduplicatedRequest (deduplicatedRequest ⟨[]⟩ "health" 7).2.1 "health" 8).1) =
       settle ((deduplicatedRequest ⟨[]⟩ "health" 7).1)) :=
  ⟨by decide, c1_dedup_coalesces ⟨[]⟩ "health" 7 8 (by decide)⟩

/-- C2 counterexample: the claim says no further automatic retries occur
even if the retry is itself rate-limited, i.e. at most 2 transport calls
per caller-issued request.  But the retry is issued through
`this.client.request`, which re-enters the same response interceptor: with
backend responses 429, 429, 200 the client waits twice and makes 3
transport calls (two automatic retries). -/
theorem c2_counterexample :
    requestWithInterceptor 10
      [⟨429, some 1, 0⟩, ⟨429, some 1, 0⟩, ⟨200, none, 7⟩] =
      some (Except.ok 7, [1000, 1000], 3) ∧ ¬ (3 ≤ 2) := by
  constructor
  · rfl
  · decide

/-- C2 amended: on a 429 response the client waits `retryAfter * 1000` ms
when the header is present and `2000` ms when absent, then retries through
the same interceptor; when the retry's response is not itself a 429,
exactly one automatic retry occurred (two transport calls) and the caller
surfaces that retry's outcome.  A rate-limited retry, however, triggers a
further automatic retry (see the counterexample). -/
theorem c2_rate_limit_retry (r1 r2 : HttpResponse) (rest : List HttpResponse)
    (fuel : Nat) (h1 : r1.status = 429) (h2 : r2.status ≠ 429) (hf : 2 ≤ fuel) :
    requestWithInterceptor fuel (r1 :: r2 :: rest) =
      some (interceptOutcome r2, [rateLimitDelay r1], 2) ∧
    (r1.retryAfter = none → rateLimitDelay r1 = 2000) ∧
    (∀ s, r1.retryAfter = some s → rateLimitDelay r1 = s * 1000) := by
  obtain ⟨fuel, rfl⟩ : ∃ n, fuel = n + 2 := ⟨fuel - 2, by omega⟩
  refine ⟨?_, ?_, ?_⟩
  · have hr1 : ¬ (200 ≤ r1.status ∧ r1.status < 300) := by omega
    unfold requestWithInterceptor
    rw [if_neg hr1, if_pos h1]
    unfold requestWithInterceptor
    by_cases h2xx : 200 ≤ r2.status ∧ r2.status < 300
    · rw [if_pos h2xx]
      simp [interceptOutcome, if_pos h2xx]
    · rw [if_neg h2xx, if_neg h2]
      simp [interceptOutcome, if_neg h2xx]
  · intro hna; simp [rateLimitDelay, hna]
  · intro s hs; simp [rateLimitDelay, hs]

/-- Witness for C2 amended: a 429 with `retry-after: 2` followed by a 200. -/
theorem c2_rate_limit_retry_witness :
    ((⟨429, some 2, 0⟩ : HttpResponse).status = 429 ∧
     (⟨200, none, 9⟩ : HttpResponse).status ≠ 429 ∧ 2 ≤ 5) ∧
    (requestWithInterceptor 5 [⟨429, some 2, 0⟩, ⟨200, none, 9⟩] =
       some (interceptOutcome ⟨200, none, 9⟩, [rateLimitDelay ⟨429, some 2, 0⟩], 2) ∧
     ((⟨429, some 2, 0⟩ : HttpResponse).retryAfter = none →
        rateLimitDelay ⟨429, some 2, 0⟩ = 2000) ∧
     (∀ s, (⟨429, some 2, 0⟩ : HttpResponse).retryAfter = some s →
        rateLimitDelay ⟨429, some 2, 0⟩ = s * 1000)) :=
  ⟨⟨rfl, by decide, by decide⟩,
   c2_rate_limit_retry ⟨429, some 2, 0⟩ ⟨200, none, 9⟩ [] 5 rfl (by decide) (by decide)⟩

/-- Only a successful open or an explicit close/cleanup can bring a
nonzero reconnect-attempt counter back to 0. -/
theorem attempts_zero_of_step (cfg : WebSocketConfig) (st : ConnState)
    (ev : WSEvent) (h0 : getReconnectAttempts (step cfg st ev).1 = 0) :
    getReconnectAttempts st = 0 ∨ ev.isOpenEv = true ∨ ev.isCloseCall = true := by
  cases ev with
  | connectCall =>
    left
    simp only [step, connectToSketch, setConnectionStatus] at h0
    split at h0 <;> simpa [getReconnectAttempts] using h0
  | openEv ok => right; left; rfl
  | messageEv frame =>
    left
    cases frame <;> simpa [step, onMessage] using h0
  | closeEv code =>
    left
    simp only [step, handleConnectionClose, handleReconnection,
      setConnectionStatus] at h0
    split at h0
    · simpa [getReconnectAttempts] using h0
    · split at h0 <;> simp [getReconnectAttempts] at h0 <;> simp [getReconnectAttempts, h0]
  | errorEv =>
    left
    simp only [step, handleConnectionError, handleReconnection,
      setConnectionStatus] at h0
    split at h0
    · split at h0 <;> simp [getReconnectAttempts] at h0 <;> simp [getReconnectAttempts, h0]
    · simpa [getReconnectAttempts] using h0
  | timerFire =>
    left
    simp only [step, timerFire] at h0
    split at h0 <;> simpa [getReconnectAttempts] using h0
  | sendCall m ok =>
    left
    simp only [step, sendMessage, queueMessage] at h0
    split at h0
    · split at h0 <;> simpa [getReconnectAttempts] using h0
    · simpa [getReconnectAttempts] using h0
  | closeCall => right; right; rfl

/-- C3 counterexample: in the trace connect → abnormal close → explicit
`closeConnection` there is no successful open event, yet the reconnect
attempts counter goes from 1 back to 0, because `closeConnection` runs
`cleanup`, which deletes the `reconnectAttempts` map entry and the
defaulted read then yields 0.  The counter is therefore not reset to 0
only on a successful open event. -/
theorem c3_counterexample :
    getReconnectAttempts
      (run defaultConfig initState
        [WSEvent.connectCall, WSEvent.closeEv 1006]).1 = 1 ∧
    getReconnectAttempts
      (run defaultConfig initState
        [WSEvent.connectCall, WSEvent.closeEv 1006, WSEvent.closeCall]).1 = 0 :=
  ⟨rfl, rfl⟩

/-- C3 amended: for a counter value `k - 1` below the maximum (retry
attempt `k`, counting from 1), `handleReconnection` schedules a timer of
exactly `min(reconnectInterval * reconnectBackoffMultiplier ^ (k-1),
maxReconnectInterval)` and increments the counter by one, so over
consecutive failures the delays follow the claimed schedule; the counter
returns to 0 only on a successful open event or on an explicit
close/cleanup of the connection (which deletes the counter entry). -/
theorem c3_backoff_schedule (cfg : WebSocketConfig) (st : ConnState)
    (ev : WSEvent) (h : getReconnectAttempts st < cfg.maxReconnectAttempts) :
    (handleReconnection cfg st).1.reconnectTimer =
      some (min (cfg.reconnectInterval *
          cfg.reconnectBackoffMultiplier ^ getReconnectAttempts st)
        cfg.maxReconnectInterval) ∧
    getReconnectAttempts (handleReconnection cfg st).1 =
      getReconnectAttempts st + 1 ∧
    (getReconnectAttempts (step cfg st ev).1 = 0 →
      getReconnectAttempts st = 0 ∨ ev.isOpenEv = true ∨ ev.isCloseCall = true) := by
  have hn : ¬ (cfg.maxReconnectAttempts ≤ getReconnectAttempts st) :=
    Nat.not_le.mpr h
  refine ⟨?_, ?_, attempts_zero_of_step cfg st ev⟩
  · simp only [handleReconnection, setConnectionStatus, reconnectDelay,
      getReconnectAttempts] at hn ⊢
    rw [if_neg hn]
  · simp only [handleReconnection, setConnectionStatus,
      getReconnectAttempts] at hn ⊢
    rw [if_neg hn]
    rfl

/-- Witness for C3 amended at the default configuration, the initial
state, and an explicit-close event. -/
theorem c3_backoff_schedule_witness :
    (getReconnectAttempts initState < defaultConfig.maxReconnectAttempts) ∧
    ((handleReconnection defaultConfig initState).1.reconnectTimer =
      some (min (defaultConfig.reconnectInterval *
          defaultConfig.reconnectBackoffMultiplier ^ getReconnectAttempts initState)
        defaultConfig.maxReconnectInterval) ∧
    getReconnectAttempts (handleReconnection defaultConfig initState).1 =
      getReconnectAttempts initState + 1 ∧
    (getReconnectAttempts (step defaultConfig initState WSEvent.closeCall).1 = 0 →
      getReconnectAttempts initState = 0 ∨
      WSEvent.closeCall.isOpenEv = true ∨ WSEvent.closeCall.isCloseCall = true)) :=
  ⟨by decide, c3_backoff_schedule defaultConfig initState WSEvent.closeCall (by decide)⟩

/-- C4 counterexample: with `maxReconnectAttempts = 1`, after the
permitted reconnect attempt fails the final abnormal close finds the
counter at the maximum and `handleConnectionClose` short-circuits to
`DISCONNECTED`, emitting `disconnected`; the status never becomes
`FAILED`, no `connectionFailed` notification is emitted, and no timer is
pending. -/
theorem c4_counterexample :
    getConnectionStatus
      (run ⟨1, 1000, 30000, 2, 30000, 100⟩ initState
        [WSEvent.connectCall, WSEvent.closeEv 1006, WSEvent.timerFire,
         WSEvent.connectCall, WSEvent.closeEv 1006]).1 =
      ConnectionStatus.disconnected ∧
    ((run ⟨1, 1000, 30000, 2, 30000, 100⟩ initState
        [WSEvent.connectCall, WSEvent.closeEv 1006, WSEvent.timerFire,
         WSEvent.connectCall, WSEvent.closeEv 1006]).2.events.all
      (fun e => !e.isConnectionFailed)) = true ∧
    (run ⟨1, 1000, 30000, 2, 30000, 100⟩ initState
        [WSEvent.connectCall, WSEvent.closeEv 1006, WSEvent.timerFire,
         WSEvent.connectCall, WSEvent.closeEv 1006]).1.reconnectTimer = none := by
  refine ⟨rfl, rfl, rfl⟩

/-- C4 amended: once the counter has reached `maxReconnectAttempts`, a
further non-normal close yields status `DISCONNECTED` with a
`disconnected` notification and schedules no new reconnect timer (so only
an explicit new connect call restarts the cycle); `handleReconnection`
itself, if entered with the counter at the maximum, sets status `FAILED`,
emits `connectionFailed` with the attempt count, and schedules no timer —
but the close handler's own guard keeps that branch out of the
close-driven failure cycle. -/
theorem c4_max_attempts (cfg : WebSocketConfig) (st : ConnState) (code : Nat)
    (h1 : code ≠ 1000)
    (h2 : cfg.maxReconnectAttempts ≤ getReconnectAttempts st) :
    (step cfg st (WSEvent.closeEv code)).1.statusEntry =
      some ConnectionStatus.disconnected ∧
    (step cfg st (WSEvent.closeEv code)).2.events =
      [EmittedEvent.statusChanged ConnectionStatus.disconnected,
       EmittedEvent.disconnectedEv code] ∧
    (step cfg st (WSEvent.closeEv code)).1.reconnectTimer = st.reconnectTimer ∧
    (handleReconnection cfg st).1.statusEntry = some ConnectionStatus.failed ∧
    (handleReconnection cfg st).2 =
      [EmittedEvent.statusChanged ConnectionStatus.failed,
       EmittedEvent.connectionFailed (getReconnectAttempts st)] ∧
    (handleReconnection cfg st).1.reconnectTimer = st.reconnectTimer := by
  simp only [getReconnectAttempts] at h2
  refine ⟨?_, ?_, ?_, ?_, ?_, ?_⟩
  · simp only [step, handleConnectionClose, setConnectionStatus,
      getReconnectAttempts]
    rw [if_pos (Or.inr h2)]
  · simp only [step, handleConnectionClose, setConnectionStatus,
      getReconnectAttempts]
    rw [if_pos (Or.inr h2)]
    rfl
  · simp only [step, handleConnectionClose, setConnectionStatus,
      getReconnectAttempts]
    rw [if_pos (Or.inr h2)]
  · simp only [handleReconnection, setConnectionStatus, getReconnectAttempts]
    rw [if_pos h2]
  · simp only [handleReconnection, setConnectionStatus, getReconnectAttempts]
    rw [if_pos h2]
    rfl
  · simp only [handleReconnection, setConnectionStatus, getReconnectAttempts]
    rw [if_pos h2]

/-- Witness for C4 amended: counter at the default maximum, abnormal
close code 1006. -/
theorem c4_max_attempts_witness :
    ((1006 : Nat) ≠ 1000 ∧
     defaultConfig.maxReconnectAttempts ≤ getReconnectAttempts
       ⟨some ConnectionStatus.reconnecting, some 5, true, true, none, true, none⟩) ∧
    ((step defaultConfig
        ⟨some ConnectionStatus.reconnecting, some 5, true, true, none, true, none⟩
        (WSEvent.closeEv 1006)).1.statusEntry =
       some ConnectionStatus.disconnected ∧
     (step defaultConfig
        ⟨some ConnectionStatus.reconnecting, some 5, true, true, none, true, none⟩
        (WSEvent.closeEv 1006)).2.events =
       [EmittedEvent.statusChanged ConnectionStatus.disconnected,
        EmittedEvent.disconnectedEv 1006] ∧
     (step defaultConfig
        ⟨some ConnectionStatus.reconnecting, some 5, true, true, none, true, none⟩
        (WSEvent.closeEv 1006)).1.reconnectTimer =
       (⟨some ConnectionStatus.reconnecting, some 5, true, true, none, true, none⟩ :
         ConnState).reconnectTimer ∧
     (handleReconnection defaultConfig
        ⟨some ConnectionStatus.reconnecting, some 5, true, true, none, true, none⟩).1.statusEntry =
       some ConnectionStatus.failed ∧
     (handleReconnection defaultConfig
        ⟨some ConnectionStatus.reconnecting, some 5, true, true, none, true, none⟩).2 =
       [EmittedEvent.statusChanged ConnectionStatus.failed,
        EmittedEvent.connectionFailed (getReconnectAttempts
          ⟨some ConnectionStatus.reconnecting, some 5, true, true, none, true, none⟩)] ∧
     (handleReconnection defaultConfig
        ⟨some ConnectionStatus.reconnecting, some 5, true, true, none, true, none⟩).1.reconnectTimer =
       (⟨some ConnectionStatus.reconnecting, some 5, true, true, none, true, none⟩ :
         ConnState).reconnectTimer) :=
  ⟨⟨by decide, by decide⟩,
   c4_max_attempts defaultConfig
     ⟨some ConnectionStatus.reconnecting, some 5, true, true, none, true, none⟩
     1006 (by decide) (by decide)⟩

/-- C5 counterexample: after a first connect call the key is in the
`CONNECTING` state (the socket is only recorded in `connections` on
`open`), so `isConnected` is false and a second connect call does not
return the existing handle — it opens a second socket. -/
theorem c5_counterexample :
    getConnectionStatus
      (run defaultConfig initState [WSEvent.connectCall]).1 =
      ConnectionStatus.connecting ∧
    (connectToSketch (run defaultConfig initState [WSEvent.connectCall]).1).2.1 =
      false ∧
    (connectToSketch (run defaultConfig initState [WSEvent.connectCall]).1).2.2 =
      1 :=
  ⟨rfl, rfl, rfl⟩

/-- C5 amended: a connect call is idempotent only for a key whose socket
is recorded and open (`isConnected`, which holds in the `CONNECTED`
state): it then returns the existing handle, opens no socket, and leaves
the state unchanged.  While merely `CONNECTING`, a further connect call
opens a second socket (see the counterexample). -/
theorem c5_connect_idempotent (st : ConnState) (h : isConnected st = true) :
    connectToSketch st = (st, true, 0) := by
  simp [connectToSketch, h]

/-- Witness for C5 amended at a connected state. -/
theorem c5_connect_idempotent_witness :
    (isConnected ⟨some ConnectionStatus.connected, some 0, true, true, none, true, none⟩ =
      true) ∧
    connectToSketch ⟨some ConnectionStatus.connected, some 0, true, true, none, true, none⟩ =
      (⟨some ConnectionStatus.connected, some 0, true, true, none, true, none⟩, true, 0) :=
  ⟨by decide,
   c5_connect_idempotent
     ⟨some ConnectionStatus.connected, some 0, true, true, none, true, none⟩ (by decide)⟩

/-- C6: after any step the queue stays within the configured capacity,
and `queueMessage` on a queue at a positive capacity appends the new
message and evicts exactly the oldest entry, preserving the FIFO order of
the remainder. -/
theorem c6_queue_capacity (cfg : WebSocketConfig) (st : ConnState)
    (m : WSMsg) (ev : WSEvent)
    (h : (queueOf st).length ≤ cfg.messageQueueMaxSize) :
    (queueOf (step cfg st ev).1).length ≤ cfg.messageQueueMaxSize ∧
    ((queueOf st).length = cfg.messageQueueMaxSize →
      0 < cfg.messageQueueMaxSize →
      queueOf (queueMessage cfg st m) = (queueOf st).tail ++ [m]) := by
  constructor
  · cases ev with
    | connectCall =>
      simp only [step, connectToSketch, setConnectionStatus]
      split <;> simpa [queueOf] using h
    | openEv ok =>
      simp only [step, openEvent, setConnectionStatus, flushMessageQueue]
      cases hq : st.queueEntry with
      | none => simpa [queueOf, hq] using h
      | some q =>
        by_cases he : q.isEmpty
        · simp only [hq, he, if_pos]
          simpa [queueOf, hq] using h
        · simp only [hq, he]
          simp only [flushLoop_eq, if_neg, Bool.false_eq_true, not_false_iff,
            Bool.and_self, if_true]
          have := length_dropWhile_le' ok q
          simp only [queueOf, hq, Option.getD_some] at h ⊢
          omega
    | messageEv frame =>
      cases frame <;> simpa [step, onMessage] using h
    | closeEv code =>
      simp only [step, handleConnectionClose, handleReconnection,
        setConnectionStatus]
      split
      · simpa [queueOf] using h
      · split <;> simpa [queueOf] using h
    | errorEv =>
      simp only [step, handleConnectionError, handleReconnection,
        setConnectionStatus]
      split
      · split <;> simpa [queueOf] using h
      · simpa [queueOf] using h
    | timerFire =>
      simp only [step, timerFire]
      split <;> simpa [queueOf] using h
    | sendCall m' ok =>
      simp only [step, sendMessage]
      split
      · split <;> simpa [queueOf] using h
      · exact queueMessage_length_le cfg st m' h
    | closeCall =>
      simp [step, closeConnection, cleanup, queueOf]
  · intro hfull hpos
    unfold queueMessage queueOf at *
    simp only [Option.getD_some]
    have hlt : cfg.messageQueueMaxSize < (st.queueEntry.getD [] ++ [m]).length := by
      simp [hfull]
    rw [if_pos hlt]
    cases hq : st.queueEntry.getD [] with
    | nil => rw [hq] at hfull; simp at hfull; omega
    | cons a t => simp

/-- Witness for C6 at a capacity-2 configuration and a full queue. -/
theorem c6_queue_capacity_witness :
    ((queueOf ⟨none, none, false, false, none, false,
        some [⟨MsgType.ping, 1, 1⟩, ⟨MsgType.ping, 2, 2⟩]⟩).length ≤
      (⟨5, 1000, 30000, 2, 30000, 2⟩ : WebSocketConfig).messageQueueMaxSize) ∧
    ((queueOf (step ⟨5, 1000, 30000, 2, 30000, 2⟩
        ⟨none, none, false, false, none, false,
          some [⟨MsgType.ping, 1, 1⟩, ⟨MsgType.ping, 2, 2⟩]⟩
        (WSEvent.sendCall ⟨MsgType.ping, 3, 3⟩ true)).1).length ≤
      (⟨5, 1000, 30000, 2, 30000, 2⟩ : WebSocketConfig).messageQueueMaxSize ∧
    ((queueOf ⟨none, none, false, false, none, false,
        some [⟨MsgType.ping, 1, 1⟩, ⟨MsgType.ping, 2, 2⟩]⟩).length =
        (⟨5, 1000, 30000, 2, 30000, 2⟩ : WebSocketConfig).messageQueueMaxSize →
      0 < (⟨5, 1000, 30000, 2, 30000, 2⟩ : WebSocketConfig).messageQueueMaxSize →
      queueOf (queueMessage ⟨5, 1000, 30000, 2, 30000, 2⟩
        ⟨none, none, false, false, none, false,
          some [⟨MsgType.ping, 1, 1⟩, ⟨MsgType.ping, 2, 2⟩]⟩ ⟨MsgType.ping, 3, 3⟩) =
        (queueOf ⟨none, none, false, false, none, false,
          some [⟨MsgType.ping, 1, 1⟩, ⟨MsgType.ping, 2, 2⟩]⟩).tail ++
          [⟨MsgType.ping, 3, 3⟩])) :=
  ⟨by decide,
   c6_queue_capacity ⟨5, 1000, 30000, 2, 30000, 2⟩
     ⟨none, none, false, false, none, false,
       some [⟨MsgType.ping, 1, 1⟩, ⟨MsgType.ping, 2, 2⟩]⟩
     ⟨MsgType.ping, 3, 3⟩ (WSEvent.sendCall ⟨MsgType.ping, 3, 3⟩ true) (by decide)⟩

/-- A send call on a state whose socket is recorded and open, with the
transmit succeeding, puts exactly that frame on the wire. -/
theorem sent_sendCall (cfg : WebSocketConfig) (st : ConnState) (m : WSMsg)
    (hw : st.hasWs = true) (ho : st.wsOpen = true) :
    (step cfg st (WSEvent.sendCall m true)).2.sent = [m] := by
  simp [step, sendMessage, hw, ho]

/-- C7: on a transition into `CONNECTED` the open handler flushes the
queue: the frames put on the wire are exactly the longest sendable prefix
of the queue, in FIFO order; the remaining queue is the untouched suffix
beginning with the failed message (re-inserted at the front by the
`unshift`), so sent-plus-remaining reassembles the original queue; and a
send issued after the open transmits after every flushed frame. -/
theorem c7_flush_fifo (cfg : WebSocketConfig) (st : ConnState)
    (ok : WSMsg → Bool) (m : WSMsg) :
    (step cfg st (WSEvent.openEv ok)).2.sent = (queueOf st).takeWhile ok ∧
    queueOf (step cfg st (WSEvent.openEv ok)).1 = (queueOf st).dropWhile ok ∧
    (step cfg st (WSEvent.openEv ok)).2.sent ++
      queueOf (step cfg st (WSEvent.openEv ok)).1 = queueOf st ∧
    (run cfg st [WSEvent.openEv ok, WSEvent.sendCall m true]).2.sent =
      (queueOf st).takeWhile ok ++ [m] := by
  have hflush :
      (step cfg st (WSEvent.openEv ok)).2.sent = (queueOf st).takeWhile ok ∧
      queueOf (step cfg st (WSEvent.openEv ok)).1 = (queueOf st).dropWhile ok ∧
      (step cfg st (WSEvent.openEv ok)).1.hasWs = true ∧
      (step cfg st (WSEvent.openEv ok)).1.wsOpen = true := by
    simp only [step, openEvent, setConnectionStatus, flushMessageQueue]
    cases hq : st.queueEntry with
    | none => simp [queueOf, hq]
    | some q =>
      by_cases he : q.isEmpty
      · have : q = [] := List.isEmpty_iff.mp he
        subst this
        simp [queueOf, hq, he]
      · simp [queueOf, hq, he, flushLoop_eq]
  obtain ⟨hs, hr, hw, ho⟩ := hflush
  refine ⟨hs, hr, ?_, ?_⟩
  · rw [hs, hr]
    exact List.takeWhile_append_dropWhile ok (queueOf st)
  · show ((step cfg st (WSEvent.openEv ok)).2.append
      (((step cfg
        (step cfg st (WSEvent.openEv ok)).1 (WSEvent.sendCall m true)).2).append
        emptyOut)).sent = (queueOf st).takeWhile ok ++ [m]
    have happ : ∀ a b : StepOut, (StepOut.append a b).sent = a.sent ++ b.sent :=
      fun a b => rfl
    rw [happ, happ, hs,
      sent_sendCall cfg (step cfg st (WSEvent.openEv ok)).1 m hw ho]
    simp [emptyOut]

/-- C8 counterexample: a `ping` frame is not consumed silently — the
`switch` has no `ping` case, so it falls to the `default` branch (a
console warning) and the generic `message` event is then emitted to
subscribers. -/
theorem c8_counterexample :
    (handleMessage MsgType.ping).1 =
      [EmittedEvent.messageEvent MsgType.ping] ∧
    (handleMessage MsgType.ping).1 ≠ [] := by
  refine ⟨rfl, by decide⟩

/-- C8 amended: `pong` frames are consumed silently for heartbeat
purposes — no subscriber event of any kind is emitted; `ping` frames,
however, hit the unknown-type default (a console warning) and the
generic any-message event is emitted to subscribers, though no typed
event is. -/
theorem c8_heartbeat_frames (st : ConnState) :
    handleMessage MsgType.pong = ([], []) ∧
    onMessage st (some MsgType.pong) = (st, [], []) ∧
    handleMessage MsgType.ping =
      ([EmittedEvent.messageEvent MsgType.ping], ["Unknown message type"]) := by
  refine ⟨rfl, ?_, rfl⟩
  simp [onMessage, handleMessage]

/-- C9 counterexample: for a frame whose `type` is outside the known
variant set, the only subscriber notification is the generic `message`
event carrying the frame — there is no warning notification to
subscribers; the warning is a console log (`console.warn`). -/
theorem c9_counterexample :
    (handleMessage (MsgType.unknown "bogus")).1 =
      [EmittedEvent.messageEvent (MsgType.unknown "bogus")] ∧
    (handleMessage (MsgType.unknown "bogus")).2 = ["Unknown message type"] :=
  ⟨rfl, rfl⟩

/-- C9 amended: an inbound frame that parses but carries an unknown
`type` is handled totally (the handler returns normally rather than
throwing), leaves the connection state — its status and its recorded
socket — completely unchanged, logs a console warning, and forwards the
frame to subscribers only through the generic `message` event. -/
theorem c9_unknown_type (st : ConnState) (s : String) :
    onMessage st (some (MsgType.unknown s)) =
      (st, [EmittedEvent.messageEvent (MsgType.unknown s)],
        ["Unknown message type"]) ∧
    getConnectionStatus (onMessage st (some (MsgType.unknown s))).1 =
      getConnectionStatus st ∧
    (onMessage st (some (MsgType.unknown s))).1.hasWs = st.hasWs := by
  refine ⟨?_, rfl, rfl⟩
  simp [onMessage, handleMessage]

/-- C10: the status lookup is total with `DISCONNECTED` as default: a
never-connected key reads `DISCONNECTED`, and after `cleanup` (run by
`closeConnection`) deletes the key's entries the lookup again yields
`DISCONNECTED`. -/
theorem c10_status_default (cfg : WebSocketConfig) (st : ConnState) :
    getConnectionStatus initState = ConnectionStatus.disconnected ∧
    getConnectionStatus (cleanup st) = ConnectionStatus.disconnected ∧
    getConnectionStatus (step cfg st WSEvent.closeCall).1 =
      ConnectionStatus.disconnected :=
  ⟨rfl, rfl, rfl⟩

end DrawBot
